/-
Verification of the FTQasm small-benchmark QEC circuit generator
(src/small/generator.py) against its natural-language specification.

The generator builds Qiskit circuits for five quantum error-correcting
codes.  We shallowly embed the circuit-building calls: a circuit is a
list of instructions, each code class is a namespace whose methods are
functions on a `CodeInstance` state (registers plus instruction list).
Qiskit's `if_test` context manager is modelled by the `Instr.ifTest`
constructor (every `with ... if_test` block in the source appends
exactly one gate, so the body is a single instruction).  Register
indexing `reg[k]` for a Python `int` k follows Python list-indexing
semantics (`pyListIdx`), since `qiskit.circuit.Register.__getitem__`
delegates an integer key to plain list indexing.  File output and the
OpenQASM-3 serializer (`qiskit.qasm3.dump`) are modelled by a pure
serializer and a writability oracle on filenames.
-/
import Mathlib

/-- A qubit, identified by its quantum register name and index within it. -/
structure Qubit where
  reg : String
  idx : Nat
deriving DecidableEq, Repr

/-- A classical bit, identified by its classical register name and index. -/
structure Clbit where
  reg : String
  idx : Nat
deriving DecidableEq, Repr

/-- One circuit instruction, mirroring the Qiskit calls the generator makes.
`ifTest reg val body` models `with circuit.if_test((register, val)): body`,
whose body is a single gate call everywhere in the source. -/
inductive Instr where
  | barrier (qs : List Qubit)
  | reset (q : Qubit)
  | h (q : Qubit)
  | x (q : Qubit)
  | y (q : Qubit)
  | z (q : Qubit)
  | cx (c t : Qubit)
  | cz (c t : Qubit)
  | measure (q : Qubit) (c : Clbit)
  | ifTest (reg : String) (val : Nat) (body : Instr)
deriving DecidableEq, Repr

/-- The state of one code object: its quantum and classical register
declarations (name, size), in the order passed to `QuantumCircuit`,
and the instruction list of its circuit. -/
structure CodeInstance where
  qregs : List (String × Nat)
  cregs : List (String × Nat)
  circuit : List Instr
deriving DecidableEq, Repr

/-- Errors a method can propagate: an `IndexError` from Python list
indexing, or an I/O error from `open(filename, "w")`. -/
inductive Err where
  | indexError
  | ioError (filename : String)
deriving DecidableEq, Repr

/-- Python list indexing semantics for a list of length `n` and an `int`
key `k`: `0 ≤ k < n` gives position `k`, `-n ≤ k < 0` gives position
`n + k`, anything else raises `IndexError` (here: `none`). -/
def pyListIdx (n : Nat) (k : Int) : Option Nat :=
  if 0 ≤ k ∧ k < (n : Int) then some k.toNat
  else if -(n : Int) ≤ k ∧ k < 0 then some (k + (n : Int)).toNat
  else none

/-- Data qubit `data[i]`. -/
def dataq (i : Nat) : Qubit := ⟨"data", i⟩

/-- Ancilla qubit `ancilla[i]`. -/
def anc (i : Nat) : Qubit := ⟨"ancilla", i⟩

/-- The single logical-readout qubit `readout[0]`. -/
def readoutQ : Qubit := ⟨"readout", 0⟩

/-- Syndrome classical bit `synd[i]`. -/
def syndBit (i : Nat) : Clbit := ⟨"synd", i⟩

/-- Logical-readout classical bit `logic[i]`. -/
def logicBit (i : Nat) : Clbit := ⟨"logic", i⟩

/-- The conditional-correction blocks of an instruction list: each
`ifTest` as (tested register, tested value, body). -/
def condCorrections (l : List Instr) : List (String × Nat × Instr) :=
  l.filterMap fun i =>
    match i with
    | .ifTest r v b => some (r, v, b)
    | _ => none

/-- Number of measurement instructions in an instruction list. -/
def countMeasures (l : List Instr) : Nat :=
  l.countP fun i =>
    match i with
    | .measure _ _ => true
    | _ => false

/-- Textual form of a qubit reference. -/
def qubitText (q : Qubit) : String :=
  q.reg ++ "[" ++ toString q.idx ++ "]"

/-- Textual form of a classical-bit reference. -/
def clbitText (c : Clbit) : String :=
  c.reg ++ "[" ++ toString c.idx ++ "]"

/-- Textual form of one instruction (model of the OpenQASM 3 line
`qiskit.qasm3.dump` emits for it). -/
def instrText : Instr → String
  | .barrier qs => "barrier " ++ String.intercalate ", " (qs.map qubitText) ++ ";"
  | .reset q => "reset " ++ qubitText q ++ ";"
  | .h q => "h " ++ qubitText q ++ ";"
  | .x q => "x " ++ qubitText q ++ ";"
  | .y q => "y " ++ qubitText q ++ ";"
  | .z q => "z " ++ qubitText q ++ ";"
  | .cx c t => "cx " ++ qubitText c ++ ", " ++ qubitText t ++ ";"
  | .cz c t => "cz " ++ qubitText c ++ ", " ++ qubitText t ++ ";"
  | .measure q c => clbitText c ++ " = measure " ++ qubitText q ++ ";"
  | .ifTest r v b => "if (" ++ r ++ " == " ++ toString v ++ ") " ++ instrText b

/-- Declaration line for a quantum register. -/
def qregText (r : String × Nat) : String :=
  "qubit[" ++ toString r.2 ++ "] " ++ r.1 ++ ";"

/-- Declaration line for a classical register. -/
def cregText (r : String × Nat) : String :=
  "bit[" ++ toString r.2 ++ "] " ++ r.1 ++ ";"

/-- Model of `qiskit.qasm3.dump`: the textual (OpenQASM 3) serialization
of an instance's circuit — header, register declarations, then one line
per instruction (conditional corrections included, via `instrText`). -/
def serializeQasm3 (s : CodeInstance) : String :=
  String.intercalate "\n"
    (["OPENQASM 3.0;"] ++ s.qregs.map qregText ++ s.cregs.map cregText
      ++ s.circuit.map instrText)

namespace ThreeQubitBitFlipCode

/-- `ThreeQubitBitFlipCode.__init__`: data(3), readout(1), ancilla(2)
quantum registers; synd(2), logic(2) classical registers; empty circuit. -/
def init : CodeInstance :=
  { qregs := [("data", 3), ("readout", 1), ("ancilla", 2)]
    cregs := [("synd", 2), ("logic", 2)]
    circuit := [] }

/-- The instructions one call of `syndrome_measurement` appends, in
source order: barrier, ancilla resets, the two Z-type stabilizer
extractions with their measurements, then the three conditional
corrections on the 2-bit `synd` register. -/
def syndrome_round : List Instr :=
  [ .barrier [dataq 0, dataq 1, dataq 2, anc 0, anc 1]
  , .reset (anc 0)
  , .reset (anc 1)
  , .cx (dataq 0) (anc 0)
  , .cx (dataq 1) (anc 0)
  , .measure (anc 0) (syndBit 0)
  , .cx (dataq 1) (anc 1)
  , .cx (dataq 2) (anc 1)
  , .measure (anc 1) (syndBit 1)
  , .ifTest "synd" 1 (.x (dataq 2))
  , .ifTest "synd" 2 (.x (dataq 0))
  , .ifTest "synd" 3 (.x (dataq 1)) ]

/-- `syndrome_measurement`: appends one syndrome round. -/
def syndrome_measurement (s : CodeInstance) : CodeInstance :=
  { s with circuit := s.circuit ++ syndrome_round }

/-- The instructions `logical_readout` appends before it evaluates
`self._logicbits[k]`: readout-qubit reset and the three parity CNOTs. -/
def readout_pre : List Instr :=
  [ .reset readoutQ
  , .cx (dataq 0) readoutQ
  , .cx (dataq 1) readoutQ
  , .cx (dataq 2) readoutQ ]

/-- `logical_readout(k)`: appends `readout_pre`, then indexes
`self._logicbits[k]` (2-bit register, Python semantics) and either
appends the measurement or propagates the `IndexError`. -/
def logical_readout (s : CodeInstance) (k : Int) : CodeInstance × Option Err :=
  match pyListIdx 2 k with
  | some i =>
      ({ s with circuit := s.circuit ++ readout_pre ++ [.measure readoutQ (logicBit i)] }, none)
  | none =>
      ({ s with circuit := s.circuit ++ readout_pre }, some .indexError)

/-- `construct_circuit`: syndrome round, readout into logic[0],
syndrome round, readout into logic[1]. -/
def construct_circuit (s : CodeInstance) : CodeInstance :=
  (logical_readout (syndrome_measurement ((logical_readout (syndrome_measurement s) 0).1)) 1).1

/-- `draw_circuit`: renders to a fixed PNG file; the circuit is not modified. -/
def draw_circuit (s : CodeInstance) : CodeInstance × String :=
  (s, "bitflip_circuit.png")

/-- `simulate`: runs the Aer simulator; only its (absent) effect on the
instance is modelled — the circuit is not modified. -/
def simulate (s : CodeInstance) : CodeInstance :=
  s

/-- Default value of `dump_qasm`'s `filename` parameter. -/
def default_filename : String := "bitflip_small.qasm"

/-- `dump_qasm(filename)`: opens `filename` for writing (the oracle `fs`
says which filenames are writable) and writes the OpenQASM 3
serialization of the circuit; an open failure propagates unmodified. -/
def dump_qasm (fs : String → Bool) (s : CodeInstance) (filename : String) :
    CodeInstance × Except Err (String × String) :=
  if fs filename then (s, .ok (filename, serializeQasm3 s))
  else (s, .error (.ioError filename))

/-- `construct_decoding_table`: `pass`. -/
def construct_decoding_table (s : CodeInstance) : CodeInstance := s

/-- `construct_process`: `pass`. -/
def construct_process (s : CodeInstance) : CodeInstance := s

end ThreeQubitBitFlipCode

namespace FiveQubitCode

/-- `FiveQubitCode.__init__`: data(5), readout(1), ancilla(4) quantum
registers; synd(4), logic(2) classical registers; empty circuit. -/
def init : CodeInstance :=
  { qregs := [("data", 5), ("readout", 1), ("ancilla", 4)]
    cregs := [("synd", 4), ("logic", 2)]
    circuit := [] }

/-- The instructions one call of `syndrome_measurement` appends, in
source order: ancilla resets, Hadamards, the sixteen stabilizer
couplings, Hadamards back, the four syndrome measurements, then the
fifteen conditional corrections (X, Z, Y groups) on the 4-bit `synd`
register. -/
def syndrome_round : List Instr :=
  [ .reset (anc 0)
  , .reset (anc 1)
  , .reset (anc 2)
  , .reset (anc 3)
  , .h (anc 0)
  , .h (anc 1)
  , .h (anc 2)
  , .h (anc 3)
  , .cx (anc 0) (dataq 0)
  , .cz (anc 0) (dataq 1)
  , .cz (anc 0) (dataq 2)
  , .cx (anc 0) (dataq 3)
  , .cx (anc 1) (dataq 1)
  , .cz (anc 1) (dataq 2)
  , .cz (anc 1) (dataq 3)
  , .cx (anc 1) (dataq 4)
  , .cx (anc 2) (dataq 0)
  , .cx (anc 2) (dataq 2)
  , .cz (anc 2) (dataq 3)
  , .cz (anc 2) (dataq 4)
  , .cz (anc 3) (dataq 0)
  , .cx (anc 3) (dataq 1)
  , .cx (anc 3) (dataq 3)
  , .cz (anc 3) (dataq 4)
  , .h (anc 0)
  , .h (anc 1)
  , .h (anc 2)
  , .h (anc 3)
  , .measure (anc 0) (syndBit 0)
  , .measure (anc 1) (syndBit 1)
  , .measure (anc 2) (syndBit 2)
  , .measure (anc 3) (syndBit 3)
  , .ifTest "synd" 8 (.x (dataq 0))
  , .ifTest "synd" 1 (.x (dataq 1))
  , .ifTest "synd" 3 (.x (dataq 2))
  , .ifTest "synd" 6 (.x (dataq 3))
  , .ifTest "synd" 12 (.x (dataq 4))
  , .ifTest "synd" 5 (.z (dataq 0))
  , .ifTest "synd" 10 (.z (dataq 1))
  , .ifTest "synd" 4 (.z (dataq 2))
  , .ifTest "synd" 9 (.z (dataq 3))
  , .ifTest "synd" 2 (.z (dataq 4))
  , .ifTest "synd" 13 (.y (dataq 0))
  , .ifTest "synd" 11 (.y (dataq 1))
  , .ifTest "synd" 7 (.y (dataq 2))
  , .ifTest "synd" 15 (.y (dataq 3))
  , .ifTest "synd" 14 (.y (dataq 4)) ]

/-- `syndrome_measurement`: appends one syndrome round. -/
def syndrome_measurement (s : CodeInstance) : CodeInstance :=
  { s with circuit := s.circuit ++ syndrome_round }

/-- The instructions `logical_readout` appends before it evaluates
`self._logicbits[k]`: readout-qubit reset and the five parity CNOTs. -/
def readout_pre : List Instr :=
  [ .reset readoutQ
  , .cx (dataq 0) readoutQ
  , .cx (dataq 1) readoutQ
  , .cx (dataq 2) readoutQ
  , .cx (dataq 3) readoutQ
  , .cx (dataq 4) readoutQ ]

/-- `logical_readout(k)`: appends `readout_pre`, then indexes
`self._logicbits[k]` and either appends the measurement or propagates
the `IndexError`. -/
def logical_readout (s : CodeInstance) (k : Int) : CodeInstance × Option Err :=
  match pyListIdx 2 k with
  | some i =>
      ({ s with circuit := s.circuit ++ readout_pre ++ [.measure readoutQ (logicBit i)] }, none)
  | none =>
      ({ s with circuit := s.circuit ++ readout_pre }, some .indexError)

/-- `construct_circuit`: syndrome round, readout into logic[0],
syndrome round, readout into logic[1]. -/
def construct_circuit (s : CodeInstance) : CodeInstance :=
  (logical_readout (syndrome_measurement ((logical_readout (syndrome_measurement s) 0).1)) 1).1

/-- `draw_circuit`: renders to a fixed PNG file; the circuit is not modified. -/
def draw_circuit (s : CodeInstance) : CodeInstance × String :=
  (s, "fivequbit_circuit.png")

/-- `simulate`: only its (absent) effect on the instance is modelled. -/
def simulate (s : CodeInstance) : CodeInstance :=
  s

/-- Default value of `dump_qasm`'s `filename` parameter. -/
def default_filename : String := "fivequbit_small.qasm"

/-- `dump_qasm(filename)`: writes the OpenQASM 3 serialization of the
circuit to `filename`; an open failure propagates unmodified. -/
def dump_qasm (fs : String → Bool) (s : CodeInstance) (filename : String) :
    CodeInstance × Except Err (String × String) :=
  if fs filename then (s, .ok (filename, serializeQasm3 s))
  else (s, .error (.ioError filename))

/-- `construct_decoding_table`: `pass`. -/
def construct_decoding_table (s : CodeInstance) : CodeInstance := s

/-- `construct_process`: `pass`. -/
def construct_process (s : CodeInstance) : CodeInstance := s

end FiveQubitCode

namespace SteaneSevenQubitCode

/-- `SteaneSevenQubitCode.__init__`: data(7), readout(1), ancilla(6)
quantum registers; synd(6), logic(2) classical registers; empty circuit. -/
def init : CodeInstance :=
  { qregs := [("data", 7), ("readout", 1), ("ancilla", 6)]
    cregs := [("synd", 6), ("logic", 2)]
    circuit := [] }

/-- `encode_logical_zero`: `pass` (TODO in the source). -/
def encode_logical_zero (s : CodeInstance) : CodeInstance := s

/-- The instructions one call of `syndrome_measurement` appends:
barrier, ancilla resets, then one placeholder stabilizer
(`cx data[0],ancilla[0]`, `cx data[1],ancilla[0]`, measure into
`synd[0]`); no conditional correction. -/
def syndrome_round : List Instr :=
  [ .barrier [dataq 0, dataq 1, dataq 2, dataq 3, dataq 4, dataq 5, dataq 6,
      anc 0, anc 1, anc 2, anc 3, anc 4, anc 5]
  , .reset (anc 0)
  , .reset (anc 1)
  , .reset (anc 2)
  , .reset (anc 3)
  , .reset (anc 4)
  , .reset (anc 5)
  , .cx (dataq 0) (anc 0)
  , .cx (dataq 1) (anc 0)
  , .measure (anc 0) (syndBit 0) ]

/-- `syndrome_measurement`: appends the placeholder round. -/
def syndrome_measurement (s : CodeInstance) : CodeInstance :=
  { s with circuit := s.circuit ++ syndrome_round }

/-- The instructions `logical_readout` appends before it evaluates
`self._logicbits[k]`. -/
def readout_pre : List Instr :=
  [ .reset readoutQ
  , .cx (dataq 0) readoutQ
  , .cx (dataq 1) readoutQ
  , .cx (dataq 2) readoutQ
  , .cx (dataq 3) readoutQ
  , .cx (dataq 4) readoutQ
  , .cx (dataq 5) readoutQ
  , .cx (dataq 6) readoutQ ]

/-- `logical_readout(k)`. -/
def logical_readout (s : CodeInstance) (k : Int) : CodeInstance × Option Err :=
  match pyListIdx 2 k with
  | some i =>
      ({ s with circuit := s.circuit ++ readout_pre ++ [.measure readoutQ (logicBit i)] }, none)
  | none =>
      ({ s with circuit := s.circuit ++ readout_pre }, some .indexError)

/-- `construct_circuit`: encode, then syndrome round, readout into
logic[0], syndrome round, readout into logic[1]. -/
def construct_circuit (s : CodeInstance) : CodeInstance :=
  (logical_readout
    (syndrome_measurement
      ((logical_readout (syndrome_measurement (encode_logical_zero s)) 0).1)) 1).1

/-- `draw_circuit`: renders to a fixed PNG file; the circuit is not modified. -/
def draw_circuit (s : CodeInstance) : CodeInstance × String :=
  (s, "steane_circuit.png")

/-- `simulate`: only its (absent) effect on the instance is modelled. -/
def simulate (s : CodeInstance) : CodeInstance :=
  s

/-- Default value of `dump_qasm`'s `filename` parameter. -/
def default_filename : String := "steane_small.qasm"

/-- `dump_qasm(filename)`. -/
def dump_qasm (fs : String → Bool) (s : CodeInstance) (filename : String) :
    CodeInstance × Except Err (String × String) :=
  if fs filename then (s, .ok (filename, serializeQasm3 s))
  else (s, .error (.ioError filename))

end SteaneSevenQubitCode

namespace ShorNineQubitCode

/-- `ShorNineQubitCode.__init__`: data(9), readout(1), ancilla(8)
quantum registers; synd(8), logic(2) classical registers; empty circuit. -/
def init : CodeInstance :=
  { qregs := [("data", 9), ("readout", 1), ("ancilla", 8)]
    cregs := [("synd", 8), ("logic", 2)]
    circuit := [] }

/-- `encode_logical_zero`: `pass` (TODO in the source). -/
def encode_logical_zero (s : CodeInstance) : CodeInstance := s

/-- The instructions one call of `syndrome_measurement` appends:
barrier, ancilla resets, then one placeholder stabilizer measured into
`synd[0]`; no conditional correction. -/
def syndrome_round : List Instr :=
  [ .barrier [dataq 0, dataq 1, dataq 2, dataq 3, dataq 4, dataq 5, dataq 6,
      dataq 7, dataq 8, anc 0, anc 1, anc 2, anc 3, anc 4, anc 5, anc 6, anc 7]
  , .reset (anc 0)
  , .reset (anc 1)
  , .reset (anc 2)
  , .reset (anc 3)
  , .reset (anc 4)
  , .reset (anc 5)
  , .reset (anc 6)
  , .reset (anc 7)
  , .cx (dataq 0) (anc 0)
  , .cx (dataq 1) (anc 0)
  , .measure (anc 0) (syndBit 0) ]

/-- `syndrome_measurement`: appends the placeholder round. -/
def syndrome_measurement (s : CodeInstance) : CodeInstance :=
  { s with circuit := s.circuit ++ syndrome_round }

/-- The instructions `logical_readout` appends before it evaluates
`self._logicbits[k]`. -/
def readout_pre : List Instr :=
  [ .reset readoutQ
  , .cx (dataq 0) readoutQ
  , .cx (dataq 1) readoutQ
  , .cx (dataq 2) readoutQ
  , .cx (dataq 3) readoutQ
  , .cx (dataq 4) readoutQ
  , .cx (dataq 5) readoutQ
  , .cx (dataq 6) readoutQ
  , .cx (dataq 7) readoutQ
  , .cx (dataq 8) readoutQ ]

/-- `logical_readout(k)`. -/
def logical_readout (s : CodeInstance) (k : Int) : CodeInstance × Option Err :=
  match pyListIdx 2 k with
  | some i =>
      ({ s with circuit := s.circuit ++ readout_pre ++ [.measure readoutQ (logicBit i)] }, none)
  | none =>
      ({ s with circuit := s.circuit ++ readout_pre }, some .indexError)

/-- `construct_circuit`: encode, then syndrome round, readout into
logic[0], syndrome round, readout into logic[1]. -/
def construct_circuit (s : CodeInstance) : CodeInstance :=
  (logical_readout
    (syndrome_measurement
      ((logical_readout (syndrome_measurement (encode_logical_zero s)) 0).1)) 1).1

/-- `draw_circuit`: renders to a fixed PNG file; the circuit is not modified. -/
def draw_circuit (s : CodeInstance) : CodeInstance × String :=
  (s, "shor_circuit.png")

/-- `simulate`: only its (absent) effect on the instance is modelled. -/
def simulate (s : CodeInstance) : CodeInstance :=
  s

/-- Default value of `dump_qasm`'s `filename` parameter. -/
def default_filename : String := "shor_small.qasm"

/-- `dump_qasm(filename)`. -/
def dump_qasm (fs : String → Bool) (s : CodeInstance) (filename : String) :
    CodeInstance × Except Err (String × String) :=
  if fs filename then (s, .ok (filename, serializeQasm3 s))
  else (s, .error (.ioError filename))

end ShorNineQubitCode

namespace Surface3x3Code

/-- `Surface3x3Code.__init__`: data(9), readout(1), ancilla(4) quantum
registers; synd(4), logic(2) classical registers; empty circuit. -/
def init : CodeInstance :=
  { qregs := [("data", 9), ("readout", 1), ("ancilla", 4)]
    cregs := [("synd", 4), ("logic", 2)]
    circuit := [] }

/-- `encode_logical_zero`: `pass` (TODO in the source). -/
def encode_logical_zero (s : CodeInstance) : CodeInstance := s

/-- The instructions one call of `syndrome_measurement` appends:
barrier, ancilla resets, one example Z-type plaquette stabilizer
(data 0,1,3,4 into `synd[0]`), and one example X-type stabilizer via
H + CZ (data 4,5,7,8 into `synd[1]`); no conditional correction. -/
def syndrome_round : List Instr :=
  [ .barrier [dataq 0, dataq 1, dataq 2, dataq 3, dataq 4, dataq 5, dataq 6,
      dataq 7, dataq 8, anc 0, anc 1, anc 2, anc 3]
  , .reset (anc 0)
  , .reset (anc 1)
  , .reset (anc 2)
  , .reset (anc 3)
  , .cx (dataq 0) (anc 0)
  , .cx (dataq 1) (anc 0)
  , .cx (dataq 3) (anc 0)
  , .cx (dataq 4) (anc 0)
  , .measure (anc 0) (syndBit 0)
  , .h (anc 1)
  , .cz (anc 1) (dataq 4)
  , .cz (anc 1) (dataq 5)
  , .cz (anc 1) (dataq 7)
  , .cz (anc 1) (dataq 8)
  , .h (anc 1)
  , .measure (anc 1) (syndBit 1) ]

/-- `syndrome_measurement`: appends the two example stabilizers. -/
def syndrome_measurement (s : CodeInstance) : CodeInstance :=
  { s with circuit := s.circuit ++ syndrome_round }

/-- The instructions `logical_readout` appends before it evaluates
`self._logicbits[k]`. -/
def readout_pre : List Instr :=
  [ .reset readoutQ
  , .cx (dataq 0) readoutQ
  , .cx (dataq 1) readoutQ
  , .cx (dataq 2) readoutQ
  , .cx (dataq 3) readoutQ
  , .cx (dataq 4) readoutQ
  , .cx (dataq 5) readoutQ
  , .cx (dataq 6) readoutQ
  , .cx (dataq 7) readoutQ
  , .cx (dataq 8) readoutQ ]

/-- `logical_readout(k)`. -/
def logical_readout (s : CodeInstance) (k : Int) : CodeInstance × Option Err :=
  match pyListIdx 2 k with
  | some i =>
      ({ s with circuit := s.circuit ++ readout_pre ++ [.measure readoutQ (logicBit i)] }, none)
  | none =>
      ({ s with circuit := s.circuit ++ readout_pre }, some .indexError)

/-- `construct_circuit`: encode, then syndrome round, readout into
logic[0], syndrome round, readout into logic[1]. -/
def construct_circuit (s : CodeInstance) : CodeInstance :=
  (logical_readout
    (syndrome_measurement
      ((logical_readout (syndrome_measurement (encode_logical_zero s)) 0).1)) 1).1

/-- `draw_circuit`: renders to a fixed PNG file; the circuit is not modified. -/
def draw_circuit (s : CodeInstance) : CodeInstance × String :=
  (s, "surface3x3_circuit.png")

/-- `simulate`: only its (absent) effect on the instance is modelled. -/
def simulate (s : CodeInstance) : CodeInstance :=
  s

/-- Default value of `dump_qasm`'s `filename` parameter. -/
def default_filename : String := "surface3x3_small.qasm"

/-- `dump_qasm(filename)`. -/
def dump_qasm (fs : String → Bool) (s : CodeInstance) (filename : String) :
    CodeInstance × Except Err (String × String) :=
  if fs filename then (s, .ok (filename, serializeQasm3 s))
  else (s, .error (.ioError filename))

end Surface3x3Code

/-- A single-qubit Pauli error. -/
inductive Pauli where
  | px
  | py
  | pz
deriving DecidableEq, Repr, Fintype

/-- The gate instruction applying a Pauli to a qubit. -/
def pauliInstr : Pauli → Qubit → Instr
  | .px, q => .x q
  | .py, q => .y q
  | .pz, q => .z q

/-- Whether a body instruction is a single Pauli gate on one of the
first `n` data qubits. -/
def isPauliOnData (n : Nat) : Instr → Bool
  | .x q => q.reg == "data" && q.idx < n
  | .y q => q.reg == "data" && q.idx < n
  | .z q => q.reg == "data" && q.idx < n
  | _ => false

/-- How a syndrome round couples ancilla `a` to data qubit `i`, read
off the round's own instruction list: via a `cx`, via a `cz`, or not
at all. -/
inductive CouplingKind where
  | viaCx
  | viaCz
deriving DecidableEq, Repr

/-- Extract the coupling of ancilla `a` to data qubit `i` from a
syndrome round's instructions. -/
def couplingOf (round : List Instr) (a i : Nat) : Option CouplingKind :=
  if (Instr.cx (anc a) (dataq i)) ∈ round then some .viaCx
  else if (Instr.cz (anc a) (dataq i)) ∈ round then some .viaCz
  else none

/-- Whether a coupling detects a Pauli error: a `cx` coupling flips the
ancilla for Z and Y errors, a `cz` coupling for X and Y errors. -/
def couplingDetects : CouplingKind → Pauli → Bool
  | .viaCx, .pz => true
  | .viaCx, .py => true
  | .viaCz, .px => true
  | .viaCz, .py => true
  | _, _ => false

/-- The syndrome value a Pauli error `p` on data qubit `i` produces,
determined by the round's couplings: bit `a` is set iff ancilla `a`'s
coupling to qubit `i` detects `p`. -/
def syndromeOf (round : List Instr) (p : Pauli) (i : Nat) : Nat :=
  (List.range 4).foldl
    (fun acc a =>
      acc + (if (couplingOf round a i).elim false (fun c => couplingDetects c p) then 2 ^ a else 0))
    0

/-- The syndrome value whose conditional block in a round applies Pauli
`p` on data qubit `i` (reading the round's own lookup table). -/
def tableValue (round : List Instr) (p : Pauli) (i : Nat) : Option Nat :=
  (condCorrections round).findSome? fun e =>
    if e.1 = "synd" ∧ e.2.2 = pauliInstr p (dataq i) then some e.2.1 else none

/-- One public-method invocation on a code object, with its arguments:
the union of the methods of the five classes. -/
inductive CodeMethod where
  | bfSynd
  | bfReadout (k : Int)
  | bfConstruct
  | bfDraw
  | bfSim
  | bfDump (fs : String → Bool) (filename : String)
  | bfTable
  | bfProcess
  | fvSynd
  | fvReadout (k : Int)
  | fvConstruct
  | fvDraw
  | fvSim
  | fvDump (fs : String → Bool) (filename : String)
  | fvTable
  | fvProcess
  | stEncode
  | stSynd
  | stReadout (k : Int)
  | stConstruct
  | stDraw
  | stSim
  | stDump (fs : String → Bool) (filename : String)
  | shEncode
  | shSynd
  | shReadout (k : Int)
  | shConstruct
  | shDraw
  | shSim
  | shDump (fs : String → Bool) (filename : String)
  | sfEncode
  | sfSynd
  | sfReadout (k : Int)
  | sfConstruct
  | sfDraw
  | sfSim
  | sfDump (fs : String → Bool) (filename : String)

/-- The effect of one method invocation on the invoked instance's state. -/
def applyMethod : CodeMethod → CodeInstance → CodeInstance
  | .bfSynd, s => ThreeQubitBitFlipCode.syndrome_measurement s
  | .bfReadout k, s => (ThreeQubitBitFlipCode.logical_readout s k).1
  | .bfConstruct, s => ThreeQubitBitFlipCode.construct_circuit s
  | .bfDraw, s => (ThreeQubitBitFlipCode.draw_circuit s).1
  | .bfSim, s => ThreeQubitBitFlipCode.simulate s
  | .bfDump fs fn, s => (ThreeQubitBitFlipCode.dump_qasm fs s fn).1
  | .bfTable, s => ThreeQubitBitFlipCode.construct_decoding_table s
  | .bfProcess, s => ThreeQubitBitFlipCode.construct_process s
  | .fvSynd, s => FiveQubitCode.syndrome_measurement s
  | .fvReadout k, s => (FiveQubitCode.logical_readout s k).1
  | .fvConstruct, s => FiveQubitCode.construct_circuit s
  | .fvDraw, s => (FiveQubitCode.draw_circuit s).1
  | .fvSim, s => FiveQubitCode.simulate s
  | .fvDump fs fn, s => (FiveQubitCode.dump_qasm fs s fn).1
  | .fvTable, s => FiveQubitCode.construct_decoding_table s
  | .fvProcess, s => FiveQubitCode.construct_process s
  | .stEncode, s => SteaneSevenQubitCode.encode_logical_zero s
  | .stSynd, s => SteaneSevenQubitCode.syndrome_measurement s
  | .stReadout k, s => (SteaneSevenQubitCode.logical_readout s k).1
  | .stConstruct, s => SteaneSevenQubitCode.construct_circuit s
  | .stDraw, s => (SteaneSevenQubitCode.draw_circuit s).1
  | .stSim, s => SteaneSevenQubitCode.simulate s
  | .stDump fs fn, s => (SteaneSevenQubitCode.dump_qasm fs s fn).1
  | .shEncode, s => ShorNineQubitCode.encode_logical_zero s
  | .shSynd, s => ShorNineQubitCode.syndrome_measurement s
  | .shReadout k, s => (ShorNineQubitCode.logical_readout s k).1
  | .shConstruct, s => ShorNineQubitCode.construct_circuit s
  | .shDraw, s => (ShorNineQubitCode.draw_circuit s).1
  | .shSim, s => ShorNineQubitCode.simulate s
  | .shDump fs fn, s => (ShorNineQubitCode.dump_qasm fs s fn).1
  | .sfEncode, s => Surface3x3Code.encode_logical_zero s
  | .sfSynd, s => Surface3x3Code.syndrome_measurement s
  | .sfReadout k, s => (Surface3x3Code.logical_readout s k).1
  | .sfConstruct, s => Surface3x3Code.construct_circuit s
  | .sfDraw, s => (Surface3x3Code.draw_circuit s).1
  | .sfSim, s => Surface3x3Code.simulate s
  | .sfDump fs fn, s => (Surface3x3Code.dump_qasm fs s fn).1

/-- A world of live instances; invoking a method on instance `i` updates
that instance alone (each instance owns the registers and circuit its
`__init__` created). -/
def invokeAt (w : List CodeInstance) (i : Nat) (m : CodeMethod) : List CodeInstance :=
  w.set i (applyMethod m (w.getD i { qregs := [], cregs := [], circuit := [] }))

/-- The sequence `construct_circuit` appends for the 3-qubit code:
syndrome round, readout into logic[0], syndrome round, readout into
logic[1]. -/
def ThreeQubitBitFlipCode.full_sequence : List Instr :=
  ThreeQubitBitFlipCode.syndrome_round
    ++ ThreeQubitBitFlipCode.readout_pre ++ [.measure readoutQ (logicBit 0)]
    ++ ThreeQubitBitFlipCode.syndrome_round
    ++ ThreeQubitBitFlipCode.readout_pre ++ [.measure readoutQ (logicBit 1)]

/-- The sequence `construct_circuit` appends for the 5-qubit code. -/
def FiveQubitCode.full_sequence : List Instr :=
  FiveQubitCode.syndrome_round
    ++ FiveQubitCode.readout_pre ++ [.measure readoutQ (logicBit 0)]
    ++ FiveQubitCode.syndrome_round
    ++ FiveQubitCode.readout_pre ++ [.measure readoutQ (logicBit 1)]

/-- The sequence `construct_circuit` appends for the Steane skeleton. -/
def SteaneSevenQubitCode.full_sequence : List Instr :=
  SteaneSevenQubitCode.syndrome_round
    ++ SteaneSevenQubitCode.readout_pre ++ [.measure readoutQ (logicBit 0)]
    ++ SteaneSevenQubitCode.syndrome_round
    ++ SteaneSevenQubitCode.readout_pre ++ [.measure readoutQ (logicBit 1)]

/-- The sequence `construct_circuit` appends for the Shor skeleton. -/
def ShorNineQubitCode.full_sequence : List Instr :=
  ShorNineQubitCode.syndrome_round
    ++ ShorNineQubitCode.readout_pre ++ [.measure readoutQ (logicBit 0)]
    ++ ShorNineQubitCode.syndrome_round
    ++ ShorNineQubitCode.readout_pre ++ [.measure readoutQ (logicBit 1)]

/-- The sequence `construct_circuit` appends for the surface-code skeleton. -/
def Surface3x3Code.full_sequence : List Instr :=
  Surface3x3Code.syndrome_round
    ++ Surface3x3Code.readout_pre ++ [.measure readoutQ (logicBit 0)]
    ++ Surface3x3Code.syndrome_round
    ++ Surface3x3Code.readout_pre ++ [.measure readoutQ (logicBit 1)]

/-- The five files `__main__` writes: each code object is constructed
fresh, built, and dumped to its explicit filename. -/
def mainRun (fs : String → Bool) : List (Except Err (String × String)) :=
  [ (ThreeQubitBitFlipCode.dump_qasm fs
      (ThreeQubitBitFlipCode.construct_circuit ThreeQubitBitFlipCode.init)
      "bitflip_memory_small.qasm").2
  , (FiveQubitCode.dump_qasm fs
      (FiveQubitCode.construct_circuit FiveQubitCode.init)
      "fivequbit_memory_small.qasm").2
  , (SteaneSevenQubitCode.dump_qasm fs
      (SteaneSevenQubitCode.construct_circuit SteaneSevenQubitCode.init)
      "steane_memory_skeleton.qasm").2
  , (ShorNineQubitCode.dump_qasm fs
      (ShorNineQubitCode.construct_circuit ShorNineQubitCode.init)
      "shor_memory_skeleton.qasm").2
  , (Surface3x3Code.dump_qasm fs
      (Surface3x3Code.construct_circuit Surface3x3Code.init)
      "surface3x3_memory_skeleton.qasm").2 ]

/-- C1: `ThreeQubitBitFlipCode.syndrome_measurement` appends exactly the
3-qubit decoding table: every call appends the fixed syndrome round, and
the conditional corrections in that round, all testing the 2-bit `synd`
register, are exactly 1 ↦ X on data[2], 2 ↦ X on data[0], 3 ↦ X on
data[1] — no correction for syndrome 0 and no other conditional block. -/
theorem three_qubit_decoding_table (s : CodeInstance) :
    (ThreeQubitBitFlipCode.syndrome_measurement s).circuit
        = s.circuit ++ ThreeQubitBitFlipCode.syndrome_round
      ∧ condCorrections ThreeQubitBitFlipCode.syndrome_round
        = [ ("synd", 1, .x (dataq 2))
          , ("synd", 2, .x (dataq 0))
          , ("synd", 3, .x (dataq 1)) ] := by
  exact ⟨rfl, by decide⟩

/-- Witness for C1 at a concrete instance. -/
theorem three_qubit_decoding_table_witness :
    (ThreeQubitBitFlipCode.syndrome_measurement ThreeQubitBitFlipCode.init).circuit
      = ThreeQubitBitFlipCode.init.circuit ++ ThreeQubitBitFlipCode.syndrome_round :=
  (three_qubit_decoding_table ThreeQubitBitFlipCode.init).1

/-- C2: `FiveQubitCode.syndrome_measurement` appends exactly 15
conditional-correction blocks; their tested syndrome values are a
permutation of 1..15 (so pairwise distinct, all non-zero, and every
non-zero 4-bit value occurs); each block tests the `synd` register and
applies exactly one Pauli gate on exactly one of the 5 data qubits. -/
theorem five_qubit_fifteen_corrections (s : CodeInstance) :
    (FiveQubitCode.syndrome_measurement s).circuit
        = s.circuit ++ FiveQubitCode.syndrome_round
      ∧ (condCorrections FiveQubitCode.syndrome_round).length = 15
      ∧ ((condCorrections FiveQubitCode.syndrome_round).map (fun e => e.2.1)).Perm
          (List.range' 1 15)
      ∧ (condCorrections FiveQubitCode.syndrome_round).all
          (fun e => e.1 == "synd" && isPauliOnData 5 e.2.2) = true := by
  refine ⟨rfl, by decide, by decide, by decide⟩

/-- Witness for C2 at a concrete instance. -/
theorem five_qubit_fifteen_corrections_witness :
    (FiveQubitCode.syndrome_measurement FiveQubitCode.init).circuit
      = FiveQubitCode.init.circuit ++ FiveQubitCode.syndrome_round :=
  (five_qubit_fifteen_corrections FiveQubitCode.init).1

/-- C3: the 5-qubit lookup table is correct against the parity-check
structure of the couplings appended in the same method: for every data
qubit `i` and Pauli `p`, the syndrome value whose conditional block
applies `p` on `data[i]` equals the syndrome the couplings assign to
that error (bit `a` set iff ancilla `a`'s coupling to qubit `i`
detects `p`; `cx` detects Z and Y, `cz` detects X and Y). -/
theorem five_qubit_table_matches_couplings :
    ∀ (i : Fin 5) (p : Pauli),
      tableValue FiveQubitCode.syndrome_round p i
        = some (syndromeOf FiveQubitCode.syndrome_round p i) := by
  decide

/-! Helper lemmas characterizing the state and error behaviour of the
methods, shared by the claim theorems below. -/

theorem three_qubit_readout_state (s : CodeInstance) (k : Int) :
    (ThreeQubitBitFlipCode.logical_readout s k).1
      = { s with circuit := s.circuit ++ ThreeQubitBitFlipCode.readout_pre
            ++ (pyListIdx 2 k).elim [] (fun i => [Instr.measure readoutQ (logicBit i)]) } := by
  rcases h : pyListIdx 2 k with _ | i <;>
    simp [ThreeQubitBitFlipCode.logical_readout, h]

theorem three_qubit_readout_err (s : CodeInstance) (k : Int) :
    (ThreeQubitBitFlipCode.logical_readout s k).2
      = (pyListIdx 2 k).elim (some Err.indexError) (fun _ => none) := by
  rcases h : pyListIdx 2 k with _ | i <;>
    simp [ThreeQubitBitFlipCode.logical_readout, h]

theorem five_qubit_readout_state (s : CodeInstance) (k : Int) :
    (FiveQubitCode.logical_readout s k).1
      = { s with circuit := s.circuit ++ FiveQubitCode.readout_pre
            ++ (pyListIdx 2 k).elim [] (fun i => [Instr.measure readoutQ (logicBit i)]) } := by
  rcases h : pyListIdx 2 k with _ | i <;>
    simp [FiveQubitCode.logical_readout, h]

theorem five_qubit_readout_err (s : CodeInstance) (k : Int) :
    (FiveQubitCode.logical_readout s k).2
      = (pyListIdx 2 k).elim (some Err.indexError) (fun _ => none) := by
  rcases h : pyListIdx 2 k with _ | i <;>
    simp [FiveQubitCode.logical_readout, h]

theorem steane_readout_state (s : CodeInstance) (k : Int) :
    (SteaneSevenQubitCode.logical_readout s k).1
      = { s with circuit := s.circuit ++ SteaneSevenQubitCode.readout_pre
            ++ (pyListIdx 2 k).elim [] (fun i => [Instr.measure readoutQ (logicBit i)]) } := by
  rcases h : pyListIdx 2 k with _ | i <;>
    simp [SteaneSevenQubitCode.logical_readout, h]

theorem steane_readout_err (s : CodeInstance) (k : Int) :
    (SteaneSevenQubitCode.logical_readout s k).2
      = (pyListIdx 2 k).elim (some Err.indexError) (fun _ => none) := by
  rcases h : pyListIdx 2 k with _ | i <;>
    simp [SteaneSevenQubitCode.logical_readout, h]

theorem shor_readout_state (s : CodeInstance) (k : Int) :
    (ShorNineQubitCode.logical_readout s k).1
      = { s with circuit := s.circuit ++ ShorNineQubitCode.readout_pre
            ++ (pyListIdx 2 k).elim [] (fun i => [Instr.measure readoutQ (logicBit i)]) } := by
  rcases h : pyListIdx 2 k with _ | i <;>
    simp [ShorNineQubitCode.logical_readout, h]

theorem shor_readout_err (s : CodeInstance) (k : Int) :
    (ShorNineQubitCode.logical_readout s k).2
      = (pyListIdx 2 k).elim (some Err.indexError) (fun _ => none) := by
  rcases h : pyListIdx 2 k with _ | i <;>
    simp [ShorNineQubitCode.logical_readout, h]

theorem surface_readout_state (s : CodeInstance) (k : Int) :
    (Surface3x3Code.logical_readout s k).1
      = { s with circuit := s.circuit ++ Surface3x3Code.readout_pre
            ++ (pyListIdx 2 k).elim [] (fun i => [Instr.measure readoutQ (logicBit i)]) } := by
  rcases h : pyListIdx 2 k with _ | i <;>
    simp [Surface3x3Code.logical_readout, h]

theorem surface_readout_err (s : CodeInstance) (k : Int) :
    (Surface3x3Code.logical_readout s k).2
      = (pyListIdx 2 k).elim (some Err.indexError) (fun _ => none) := by
  rcases h : pyListIdx 2 k with _ | i <;>
    simp [Surface3x3Code.logical_readout, h]

theorem three_qubit_dump_eq (fs : String → Bool) (s : CodeInstance) (fn : String) :
    ThreeQubitBitFlipCode.dump_qasm fs s fn
      = (s, if fs fn then Except.ok (fn, serializeQasm3 s)
            else Except.error (Err.ioError fn)) := by
  by_cases h : fs fn <;> simp [ThreeQubitBitFlipCode.dump_qasm, h]

theorem five_qubit_dump_eq (fs : String → Bool) (s : CodeInstance) (fn : String) :
    FiveQubitCode.dump_qasm fs s fn
      = (s, if fs fn then Except.ok (fn, serializeQasm3 s)
            else Except.error (Err.ioError fn)) := by
  by_cases h : fs fn <;> simp [FiveQubitCode.dump_qasm, h]

theorem steane_dump_eq (fs : String → Bool) (s : CodeInstance) (fn : String) :
    SteaneSevenQubitCode.dump_qasm fs s fn
      = (s, if fs fn then Except.ok (fn, serializeQasm3 s)
            else Except.error (Err.ioError fn)) := by
  by_cases h : fs fn <;> simp [SteaneSevenQubitCode.dump_qasm, h]

theorem shor_dump_eq (fs : String → Bool) (s : CodeInstance) (fn : String) :
    ShorNineQubitCode.dump_qasm fs s fn
      = (s, if fs fn then Except.ok (fn, serializeQasm3 s)
            else Except.error (Err.ioError fn)) := by
  by_cases h : fs fn <;> simp [ShorNineQubitCode.dump_qasm, h]

theorem surface_dump_eq (fs : String → Bool) (s : CodeInstance) (fn : String) :
    Surface3x3Code.dump_qasm fs s fn
      = (s, if fs fn then Except.ok (fn, serializeQasm3 s)
            else Except.error (Err.ioError fn)) := by
  by_cases h : fs fn <;> simp [Surface3x3Code.dump_qasm, h]

theorem three_qubit_construct_eq (s : CodeInstance) :
    ThreeQubitBitFlipCode.construct_circuit s
      = { s with circuit := s.circuit ++ ThreeQubitBitFlipCode.full_sequence } := by
  have h0 : pyListIdx 2 0 = some 0 := rfl
  have h1 : pyListIdx 2 1 = some 1 := rfl
  simp [ThreeQubitBitFlipCode.construct_circuit, ThreeQubitBitFlipCode.logical_readout,
    ThreeQubitBitFlipCode.syndrome_measurement, h0, h1,
    ThreeQubitBitFlipCode.full_sequence, List.append_assoc]

theorem five_qubit_construct_eq (s : CodeInstance) :
    FiveQubitCode.construct_circuit s
      = { s with circuit := s.circuit ++ FiveQubitCode.full_sequence } := by
  have h0 : pyListIdx 2 0 = some 0 := rfl
  have h1 : pyListIdx 2 1 = some 1 := rfl
  simp [FiveQubitCode.construct_circuit, FiveQubitCode.logical_readout,
    FiveQubitCode.syndrome_measurement, h0, h1,
    FiveQubitCode.full_sequence, List.append_assoc]

theorem steane_construct_eq (s : CodeInstance) :
    SteaneSevenQubitCode.construct_circuit s
      = { s with circuit := s.circuit ++ SteaneSevenQubitCode.full_sequence } := by
  have h0 : pyListIdx 2 0 = some 0 := rfl
  have h1 : pyListIdx 2 1 = some 1 := rfl
  simp [SteaneSevenQubitCode.construct_circuit, SteaneSevenQubitCode.logical_readout,
    SteaneSevenQubitCode.syndrome_measurement, SteaneSevenQubitCode.encode_logical_zero,
    h0, h1, SteaneSevenQubitCode.full_sequence, List.append_assoc]

theorem shor_construct_eq (s : CodeInstance) :
    ShorNineQubitCode.construct_circuit s
      = { s with circuit := s.circuit ++ ShorNineQubitCode.full_sequence } := by
  have h0 : pyListIdx 2 0 = some 0 := rfl
  have h1 : pyListIdx 2 1 = some 1 := rfl
  simp [ShorNineQubitCode.construct_circuit, ShorNineQubitCode.logical_readout,
    ShorNineQubitCode.syndrome_measurement, ShorNineQubitCode.encode_logical_zero,
    h0, h1, ShorNineQubitCode.full_sequence, List.append_assoc]

theorem surface_construct_eq (s : CodeInstance) :
    Surface3x3Code.construct_circuit s
      = { s with circuit := s.circuit ++ Surface3x3Code.full_sequence } := by
  have h0 : pyListIdx 2 0 = some 0 := rfl
  have h1 : pyListIdx 2 1 = some 1 := rfl
  simp [Surface3x3Code.construct_circuit, Surface3x3Code.logical_readout,
    Surface3x3Code.syndrome_measurement, Surface3x3Code.encode_logical_zero,
    h0, h1, Surface3x3Code.full_sequence, List.append_assoc]

theorem pyListIdx_two_cases (k : Int) :
    pyListIdx 2 k =
      if k = 0 ∨ k = -2 then some 0
      else if k = 1 ∨ k = -1 then some 1
      else none := by
  have h : k = 0 ∨ k = 1 ∨ k = -1 ∨ k = -2
      ∨ (¬(0 ≤ k ∧ k < 2) ∧ ¬(-2 ≤ k ∧ k < 0)) := by omega
  rcases h with rfl | rfl | rfl | rfl | ⟨h1, h2⟩
  · decide
  · decide
  · decide
  · decide
  · have hn0 : ¬(k = 0 ∨ k = -2) := by omega
    have hn1 : ¬(k = 1 ∨ k = -1) := by omega
    simp [pyListIdx, h1, h2, hn0, hn1]

/-- Generic helper: a method that rewrites the state to a circuit-append
structure update is append-only and preserves the registers. -/
theorem append_only_of_struct (f : CodeInstance → CodeInstance) (L : List Instr)
    (hf : ∀ s, f s = { s with circuit := s.circuit ++ L }) (s : CodeInstance) :
    ∃ t, (f s).circuit = s.circuit ++ t
      ∧ (f s).qregs = s.qregs ∧ (f s).cregs = s.cregs :=
  ⟨L, by rw [hf s], by rw [hf s], by rw [hf s]⟩

/-- Helper: the error component of a readout is `none` exactly on the
four Python-indexable keys of a 2-bit register. -/
theorem elimErr_none_iff (k : Int) :
    ((pyListIdx 2 k).elim (some Err.indexError) (fun _ => none) : Option Err) = none
      ↔ (k = 0 ∨ k = 1 ∨ k = -1 ∨ k = -2) := by
  rw [pyListIdx_two_cases k]
  split_ifs with h1 h2 <;> simp <;> omega

/-- C4 counterexample: `Surface3x3Code.syndrome_measurement` measures
two stabilizers on a fresh instance, not a single one as claimed. -/
theorem surface_two_stabilizers_counterexample :
    countMeasures (Surface3x3Code.syndrome_measurement Surface3x3Code.init).circuit = 2
      ∧ ¬ countMeasures (Surface3x3Code.syndrome_measurement Surface3x3Code.init).circuit = 1 := by
  decide

/-- C4 (amended): conditional decoding logic exists only in the 3-qubit
(3 blocks) and 5-qubit (15 blocks) classes; `syndrome_measurement` of the
Steane and Shor skeletons appends no conditional correction and measures
a single placeholder stabilizer, while the Surface3x3 skeleton appends no
conditional correction and measures two example stabilizers; the three
skeletons' `encode_logical_zero` appends nothing. -/
theorem skeleton_codes_placeholder (s : CodeInstance) :
    (condCorrections ThreeQubitBitFlipCode.syndrome_round).length = 3
  ∧ (condCorrections FiveQubitCode.syndrome_round).length = 15
  ∧ (SteaneSevenQubitCode.syndrome_measurement s).circuit
      = s.circuit ++ SteaneSevenQubitCode.syndrome_round
  ∧ condCorrections SteaneSevenQubitCode.syndrome_round = []
  ∧ countMeasures SteaneSevenQubitCode.syndrome_round = 1
  ∧ SteaneSevenQubitCode.encode_logical_zero s = s
  ∧ (ShorNineQubitCode.syndrome_measurement s).circuit
      = s.circuit ++ ShorNineQubitCode.syndrome_round
  ∧ condCorrections ShorNineQubitCode.syndrome_round = []
  ∧ countMeasures ShorNineQubitCode.syndrome_round = 1
  ∧ ShorNineQubitCode.encode_logical_zero s = s
  ∧ (Surface3x3Code.syndrome_measurement s).circuit
      = s.circuit ++ Surface3x3Code.syndrome_round
  ∧ condCorrections Surface3x3Code.syndrome_round = []
  ∧ countMeasures Surface3x3Code.syndrome_round = 2
  ∧ Surface3x3Code.encode_logical_zero s = s := by
  refine ⟨by decide, by decide, rfl, by decide, by decide, rfl, rfl, by decide,
    by decide, rfl, rfl, by decide, by decide, rfl⟩

/-- C5: no method validates inputs, catches an exception or transforms
an error: every class's `logical_readout` either succeeds or propagates
the underlying `IndexError` unmodified (exactly when the indexing
fails), and every class's `dump_qasm` either writes the file or
propagates the underlying I/O error for that filename unmodified. -/
theorem errors_propagate_unmodified (s : CodeInstance) (k : Int)
    (fs : String → Bool) (fn : String) :
    (ThreeQubitBitFlipCode.logical_readout s k).2
      = (pyListIdx 2 k).elim (some Err.indexError) (fun _ => none)
  ∧ (FiveQubitCode.logical_readout s k).2
      = (pyListIdx 2 k).elim (some Err.indexError) (fun _ => none)
  ∧ (SteaneSevenQubitCode.logical_readout s k).2
      = (pyListIdx 2 k).elim (some Err.indexError) (fun _ => none)
  ∧ (ShorNineQubitCode.logical_readout s k).2
      = (pyListIdx 2 k).elim (some Err.indexError) (fun _ => none)
  ∧ (Surface3x3Code.logical_readout s k).2
      = (pyListIdx 2 k).elim (some Err.indexError) (fun _ => none)
  ∧ ThreeQubitBitFlipCode.dump_qasm fs s fn
      = (s, if fs fn then Except.ok (fn, serializeQasm3 s)
            else Except.error (Err.ioError fn))
  ∧ FiveQubitCode.dump_qasm fs s fn
      = (s, if fs fn then Except.ok (fn, serializeQasm3 s)
            else Except.error (Err.ioError fn))
  ∧ SteaneSevenQubitCode.dump_qasm fs s fn
      = (s, if fs fn then Except.ok (fn, serializeQasm3 s)
            else Except.error (Err.ioError fn))
  ∧ ShorNineQubitCode.dump_qasm fs s fn
      = (s, if fs fn then Except.ok (fn, serializeQasm3 s)
            else Except.error (Err.ioError fn))
  ∧ Surface3x3Code.dump_qasm fs s fn
      = (s, if fs fn then Except.ok (fn, serializeQasm3 s)
            else Except.error (Err.ioError fn)) :=
  ⟨three_qubit_readout_err s k, five_qubit_readout_err s k, steane_readout_err s k,
    shor_readout_err s k, surface_readout_err s k,
    three_qubit_dump_eq fs s fn, five_qubit_dump_eq fs s fn, steane_dump_eq fs s fn,
    shor_dump_eq fs s fn, surface_dump_eq fs s fn⟩

/-- C6: for every class, `dump_qasm` writes exactly one file, named by
the caller-supplied argument (the per-class defaults being the fixed
strings below), whose content is the OpenQASM 3 serialization of that
instance's circuit; running the script as `__main__` writes exactly one
such file per code, with the five explicit filenames. -/
theorem dump_writes_single_file (fs : String → Bool) (hfs : ∀ n, fs n = true)
    (s : CodeInstance) (fn : String) :
    ThreeQubitBitFlipCode.dump_qasm fs s fn = (s, Except.ok (fn, serializeQasm3 s))
  ∧ FiveQubitCode.dump_qasm fs s fn = (s, Except.ok (fn, serializeQasm3 s))
  ∧ SteaneSevenQubitCode.dump_qasm fs s fn = (s, Except.ok (fn, serializeQasm3 s))
  ∧ ShorNineQubitCode.dump_qasm fs s fn = (s, Except.ok (fn, serializeQasm3 s))
  ∧ Surface3x3Code.dump_qasm fs s fn = (s, Except.ok (fn, serializeQasm3 s))
  ∧ ThreeQubitBitFlipCode.default_filename = "bitflip_small.qasm"
  ∧ FiveQubitCode.default_filename = "fivequbit_small.qasm"
  ∧ SteaneSevenQubitCode.default_filename = "steane_small.qasm"
  ∧ ShorNineQubitCode.default_filename = "shor_small.qasm"
  ∧ Surface3x3Code.default_filename = "surface3x3_small.qasm"
  ∧ mainRun fs =
      [ Except.ok ("bitflip_memory_small.qasm",
          serializeQasm3 (ThreeQubitBitFlipCode.construct_circuit ThreeQubitBitFlipCode.init))
      , Except.ok ("fivequbit_memory_small.qasm",
          serializeQasm3 (FiveQubitCode.construct_circuit FiveQubitCode.init))
      , Except.ok ("steane_memory_skeleton.qasm",
          serializeQasm3 (SteaneSevenQubitCode.construct_circuit SteaneSevenQubitCode.init))
      , Except.ok ("shor_memory_skeleton.qasm",
          serializeQasm3 (ShorNineQubitCode.construct_circuit ShorNineQubitCode.init))
      , Except.ok ("surface3x3_memory_skeleton.qasm",
          serializeQasm3 (Surface3x3Code.construct_circuit Surface3x3Code.init)) ] := by
  refine ⟨?_, ?_, ?_, ?_, ?_, rfl, rfl, rfl, rfl, rfl, ?_⟩ <;>
    simp [three_qubit_dump_eq, five_qubit_dump_eq, steane_dump_eq, shor_dump_eq,
      surface_dump_eq, hfs, mainRun]

/-- Witness for C6: with every filename writable, dumping a fresh
3-qubit instance writes exactly the one requested file. -/
theorem dump_writes_single_file_witness :
    ThreeQubitBitFlipCode.dump_qasm (fun _ => true) ThreeQubitBitFlipCode.init "out.qasm"
      = (ThreeQubitBitFlipCode.init,
          Except.ok ("out.qasm", serializeQasm3 ThreeQubitBitFlipCode.init)) :=
  (dump_writes_single_file (fun _ => true) (fun _ => rfl)
    ThreeQubitBitFlipCode.init "out.qasm").1

/-- C7: circuit construction is deterministic: for every class,
`construct_circuit` appends one fixed instruction sequence, independent
of any input or prior state (so two fresh instances end up identical). -/
theorem construct_circuit_deterministic (s : CodeInstance) :
    ThreeQubitBitFlipCode.construct_circuit s
      = { s with circuit := s.circuit ++ ThreeQubitBitFlipCode.full_sequence }
  ∧ FiveQubitCode.construct_circuit s
      = { s with circuit := s.circuit ++ FiveQubitCode.full_sequence }
  ∧ SteaneSevenQubitCode.construct_circuit s
      = { s with circuit := s.circuit ++ SteaneSevenQubitCode.full_sequence }
  ∧ ShorNineQubitCode.construct_circuit s
      = { s with circuit := s.circuit ++ ShorNineQubitCode.full_sequence }
  ∧ Surface3x3Code.construct_circuit s
      = { s with circuit := s.circuit ++ Surface3x3Code.full_sequence } :=
  ⟨three_qubit_construct_eq s, five_qubit_construct_eq s, steane_construct_eq s,
    shor_construct_eq s, surface_construct_eq s⟩

/-- C8: instances share no mutable state: invoking any method (of any
class, with any arguments) on instance `i` of a world of live instances
leaves every other instance unchanged. -/
theorem instances_share_no_state (w : List CodeInstance) (i j : Nat)
    (m : CodeMethod) (h : i ≠ j) :
    (invokeAt w i m)[j]? = w[j]? := by
  simp only [invokeAt]
  exact List.getElem?_set_ne h

/-- Witness for C8: running `construct_circuit` on the first of two
instances leaves the second untouched. -/
theorem instances_share_no_state_witness :
    (invokeAt [ThreeQubitBitFlipCode.init, FiveQubitCode.init] 0 CodeMethod.bfConstruct)[1]?
      = [ThreeQubitBitFlipCode.init, FiveQubitCode.init][1]? :=
  instances_share_no_state [ThreeQubitBitFlipCode.init, FiveQubitCode.init] 0 1
    CodeMethod.bfConstruct (by decide)

/-- C9 counterexample: `logical_readout(-1)` succeeds on a fresh 3-qubit
instance although -1 ∉ {0, 1} (Python negative indexing), and
`logical_readout(2)` does raise an index error — but only after the
reset and CNOT instructions were already appended, so the circuit has
changed. -/
theorem logical_readout_index_counterexample :
    (ThreeQubitBitFlipCode.logical_readout ThreeQubitBitFlipCode.init (-1)).2 = none
  ∧ (ThreeQubitBitFlipCode.logical_readout ThreeQubitBitFlipCode.init 2).2
      = some Err.indexError
  ∧ ¬ (ThreeQubitBitFlipCode.logical_readout ThreeQubitBitFlipCode.init 2).1.circuit
        = ThreeQubitBitFlipCode.init.circuit := by
  decide

/-- C9 (amended): for every code class, `logical_readout(k)` succeeds
exactly for k ∈ {0, 1, -1, -2} (the logic register has 2 bits and Python
indexing resolves -1, -2 to bits 1, 0); for every other k the indexing
of the logic register fails with an index error, but only after the
readout reset and parity CNOTs were appended — on success the
measurement targets logic bit `pyListIdx 2 k`. -/
theorem logical_readout_domain (s : CodeInstance) (k : Int) :
    ((ThreeQubitBitFlipCode.logical_readout s k).2 = none
        ↔ (k = 0 ∨ k = 1 ∨ k = -1 ∨ k = -2))
  ∧ (ThreeQubitBitFlipCode.logical_readout s k).1.circuit
      = s.circuit ++ ThreeQubitBitFlipCode.readout_pre
        ++ (pyListIdx 2 k).elim [] (fun i => [Instr.measure readoutQ (logicBit i)])
  ∧ ((FiveQubitCode.logical_readout s k).2 = none
        ↔ (k = 0 ∨ k = 1 ∨ k = -1 ∨ k = -2))
  ∧ (FiveQubitCode.logical_readout s k).1.circuit
      = s.circuit ++ FiveQubitCode.readout_pre
        ++ (pyListIdx 2 k).elim [] (fun i => [Instr.measure readoutQ (logicBit i)])
  ∧ ((SteaneSevenQubitCode.logical_readout s k).2 = none
        ↔ (k = 0 ∨ k = 1 ∨ k = -1 ∨ k = -2))
  ∧ (SteaneSevenQubitCode.logical_readout s k).1.circuit
      = s.circuit ++ SteaneSevenQubitCode.readout_pre
        ++ (pyListIdx 2 k).elim [] (fun i => [Instr.measure readoutQ (logicBit i)])
  ∧ ((ShorNineQubitCode.logical_readout s k).2 = none
        ↔ (k = 0 ∨ k = 1 ∨ k = -1 ∨ k = -2))
  ∧ (ShorNineQubitCode.logical_readout s k).1.circuit
      = s.circuit ++ ShorNineQubitCode.readout_pre
        ++ (pyListIdx 2 k).elim [] (fun i => [Instr.measure readoutQ (logicBit i)])
  ∧ ((Surface3x3Code.logical_readout s k).2 = none
        ↔ (k = 0 ∨ k = 1 ∨ k = -1 ∨ k = -2))
  ∧ (Surface3x3Code.logical_readout s k).1.circuit
      = s.circuit ++ Surface3x3Code.readout_pre
        ++ (pyListIdx 2 k).elim [] (fun i => [Instr.measure readoutQ (logicBit i)]) := by
  refine ⟨?_, ?_, ?_, ?_, ?_, ?_, ?_, ?_, ?_, ?_⟩
  · rw [three_qubit_readout_err s k]; exact elimErr_none_iff k
  · rw [three_qubit_readout_state s k]
  · rw [five_qubit_readout_err s k]; exact elimErr_none_iff k
  · rw [five_qubit_readout_state s k]
  · rw [steane_readout_err s k]; exact elimErr_none_iff k
  · rw [steane_readout_state s k]
  · rw [shor_readout_err s k]; exact elimErr_none_iff k
  · rw [shor_readout_state s k]
  · rw [surface_readout_err s k]; exact elimErr_none_iff k
  · rw [surface_readout_state s k]

/-- Witness for C9's amended theorem: at k = -1, a key outside {0, 1},
the readout nevertheless succeeds. -/
theorem logical_readout_domain_witness :
    (FiveQubitCode.logical_readout FiveQubitCode.init (-1)).2 = none :=
  (logical_readout_domain FiveQubitCode.init (-1)).2.2.1.mpr (by decide)

/-- C10: every builder method only appends to its instance's circuit
(and leaves the register declarations untouched); iterating
`construct_circuit` n times on one 3-qubit instance concatenates n
copies of its two-round sequence; `dump_qasm` and `draw_circuit` leave
the instance unchanged. -/
theorem builder_methods_append_only :
    (∀ (m : CodeMethod) (s : CodeInstance),
        ∃ t, (applyMethod m s).circuit = s.circuit ++ t
          ∧ (applyMethod m s).qregs = s.qregs ∧ (applyMethod m s).cregs = s.cregs)
  ∧ (∀ (s : CodeInstance) (n : Nat),
        (ThreeQubitBitFlipCode.construct_circuit^[n] s).circuit
          = s.circuit ++ (List.replicate n ThreeQubitBitFlipCode.full_sequence).flatten)
  ∧ (∀ (fs : String → Bool) (s : CodeInstance) (fn : String),
        (ThreeQubitBitFlipCode.dump_qasm fs s fn).1 = s
      ∧ (FiveQubitCode.dump_qasm fs s fn).1 = s
      ∧ (SteaneSevenQubitCode.dump_qasm fs s fn).1 = s
      ∧ (ShorNineQubitCode.dump_qasm fs s fn).1 = s
      ∧ (Surface3x3Code.dump_qasm fs s fn).1 = s
      ∧ (ThreeQubitBitFlipCode.draw_circuit s).1 = s
      ∧ (FiveQubitCode.draw_circuit s).1 = s
      ∧ (SteaneSevenQubitCode.draw_circuit s).1 = s
      ∧ (ShorNineQubitCode.draw_circuit s).1 = s
      ∧ (Surface3x3Code.draw_circuit s).1 = s) := by
  refine ⟨?_, ?_, ?_⟩
  · intro m s
    cases m with
    | bfSynd => exact ⟨_, rfl, rfl, rfl⟩
    | bfReadout k =>
        refine ⟨ThreeQubitBitFlipCode.readout_pre
            ++ (pyListIdx 2 k).elim [] (fun i => [Instr.measure readoutQ (logicBit i)]),
          ?_, ?_, ?_⟩ <;>
          simp [applyMethod, three_qubit_readout_state s k, List.append_assoc]
    | bfConstruct => exact append_only_of_struct _ _ three_qubit_construct_eq s
    | bfDraw =>
        exact ⟨[], by simp [applyMethod, ThreeQubitBitFlipCode.draw_circuit], rfl, rfl⟩
    | bfSim =>
        exact ⟨[], by simp [applyMethod, ThreeQubitBitFlipCode.simulate], rfl, rfl⟩
    | bfDump fs fn =>
        refine ⟨[], ?_, ?_, ?_⟩ <;> simp [applyMethod, three_qubit_dump_eq]
    | bfTable =>
        exact ⟨[], by simp [applyMethod, ThreeQubitBitFlipCode.construct_decoding_table], rfl, rfl⟩
    | bfProcess =>
        exact ⟨[], by simp [applyMethod, ThreeQubitBitFlipCode.construct_process], rfl, rfl⟩
    | fvSynd => exact ⟨_, rfl, rfl, rfl⟩
    | fvReadout k =>
        refine ⟨FiveQubitCode.readout_pre
            ++ (pyListIdx 2 k).elim [] (fun i => [Instr.measure readoutQ (logicBit i)]),
          ?_, ?_, ?_⟩ <;>
          simp [applyMethod, five_qubit_readout_state s k, List.append_assoc]
    | fvConstruct => exact append_only_of_struct _ _ five_qubit_construct_eq s
    | fvDraw =>
        exact ⟨[], by simp [applyMethod, FiveQubitCode.draw_circuit], rfl, rfl⟩
    | fvSim =>
        exact ⟨[], by simp [applyMethod, FiveQubitCode.simulate], rfl, rfl⟩
    | fvDump fs fn =>
        refine ⟨[], ?_, ?_, ?_⟩ <;> simp [applyMethod, five_qubit_dump_eq]
    | fvTable =>
        exact ⟨[], by simp [applyMethod, FiveQubitCode.construct_decoding_table], rfl, rfl⟩
    | fvProcess =>
        exact ⟨[], by simp [applyMethod, FiveQubitCode.construct_process], rfl, rfl⟩
    | stEncode =>
        exact ⟨[], by simp [applyMethod, SteaneSevenQubitCode.encode_logical_zero], rfl, rfl⟩
    | stSynd => exact ⟨_, rfl, rfl, rfl⟩
    | stReadout k =>
        refine ⟨SteaneSevenQubitCode.readout_pre
            ++ (pyListIdx 2 k).elim [] (fun i => [Instr.measure readoutQ (logicBit i)]),
          ?_, ?_, ?_⟩ <;>
          simp [applyMethod, steane_readout_state s k, List.append_assoc]
    | stConstruct => exact append_only_of_struct _ _ steane_construct_eq s
    | stDraw =>
        exact ⟨[], by simp [applyMethod, SteaneSevenQubitCode.draw_circuit], rfl, rfl⟩
    | stSim =>
        exact ⟨[], by simp [applyMethod, SteaneSevenQubitCode.simulate], rfl, rfl⟩
    | stDump fs fn =>
        refine ⟨[], ?_, ?_, ?_⟩ <;> simp [applyMethod, steane_dump_eq]
    | shEncode =>
        exact ⟨[], by simp [applyMethod, ShorNineQubitCode.encode_logical_zero], rfl, rfl⟩
    | shSynd => exact ⟨_, rfl, rfl, rfl⟩
    | shReadout k =>
        refine ⟨ShorNineQubitCode.readout_pre
            ++ (pyListIdx 2 k).elim [] (fun i => [Instr.measure readoutQ (logicBit i)]),
          ?_, ?_, ?_⟩ <;>
          simp [applyMethod, shor_readout_state s k, List.append_assoc]
    | shConstruct => exact append_only_of_struct _ _ shor_construct_eq s
    | shDraw =>
        exact ⟨[], by simp [applyMethod, ShorNineQubitCode.draw_circuit], rfl, rfl⟩
    | shSim =>
        exact ⟨[], by simp [applyMethod, ShorNineQubitCode.simulate], rfl, rfl⟩
    | shDump fs fn =>
        refine ⟨[], ?_, ?_, ?_⟩ <;> simp [applyMethod, shor_dump_eq]
    | sfEncode =>
        exact ⟨[], by simp [applyMethod, Surface3x3Code.encode_logical_zero], rfl, rfl⟩
    | sfSynd => exact ⟨_, rfl, rfl, rfl⟩
    | sfReadout k =>
        refine ⟨Surface3x3Code.readout_pre
            ++ (pyListIdx 2 k).elim [] (fun i => [Instr.measure readoutQ (logicBit i)]),
          ?_, ?_, ?_⟩ <;>
          simp [applyMethod, surface_readout_state s k, List.append_assoc]
    | sfConstruct => exact append_only_of_struct _ _ surface_construct_eq s
    | sfDraw =>
        exact ⟨[], by simp [applyMethod, Surface3x3Code.draw_circuit], rfl, rfl⟩
    | sfSim =>
        exact ⟨[], by simp [applyMethod, Surface3x3Code.simulate], rfl, rfl⟩
    | sfDump fs fn =>
        refine ⟨[], ?_, ?_, ?_⟩ <;> simp [applyMethod, surface_dump_eq]
  · intro s n
    induction n generalizing s with
    | zero => simp
    | succ n ih =>
        rw [Function.iterate_succ_apply,
          ih (ThreeQubitBitFlipCode.construct_circuit s),
          three_qubit_construct_eq s]
        simp [List.replicate_succ, List.append_assoc]
  · intro fs s fn
    refine ⟨by simp [three_qubit_dump_eq], by simp [five_qubit_dump_eq],
      by simp [steane_dump_eq], by simp [shor_dump_eq], by simp [surface_dump_eq],
      rfl, rfl, rfl, rfl, rfl⟩

/-- Witness for C3 at a concrete error: an X error on data qubit 0. -/
theorem five_qubit_table_matches_couplings_witness :
    tableValue FiveQubitCode.syndrome_round Pauli.px 0
      = some (syndromeOf FiveQubitCode.syndrome_round Pauli.px 0) :=
  five_qubit_table_matches_couplings 0 Pauli.px

/-- Witness for C4's amended theorem at a concrete instance. -/
theorem skeleton_codes_placeholder_witness :
    (condCorrections ThreeQubitBitFlipCode.syndrome_round).length = 3 :=
  (skeleton_codes_placeholder ThreeQubitBitFlipCode.init).1

/-- Witness for C5 at a concrete failing readout key. -/
theorem errors_propagate_unmodified_witness :
    (ThreeQubitBitFlipCode.logical_readout ThreeQubitBitFlipCode.init 5).2
      = (pyListIdx 2 5).elim (some Err.indexError) (fun _ => none) :=
  (errors_propagate_unmodified ThreeQubitBitFlipCode.init 5 (fun _ => true) "f.qasm").1

/-- Witness for C7 at a fresh 3-qubit instance. -/
theorem construct_circuit_deterministic_witness :
    ThreeQubitBitFlipCode.construct_circuit ThreeQubitBitFlipCode.init
      = { ThreeQubitBitFlipCode.init with
          circuit := ThreeQubitBitFlipCode.init.circuit
            ++ ThreeQubitBitFlipCode.full_sequence } :=
  (construct_circuit_deterministic ThreeQubitBitFlipCode.init).1
